import Mathlib

/-!
Shallow embedding of `src/how_fast_is_server.c`, a concurrent HTTP load
generator.  The program parses a configuration (`-u URL -r N [-s]`),
validates it, spawns N pthreads each performing one curl request and
recording timing/outcome into its own `thread_info` slot, joins them in
ordinal order while aggregating an error count and per-record telemetry
lines, and prints a final summary line.

Machine integers (`long`, `int`, `curl_off_t`) are modelled as `Int`
(overflow never matters for the quantities involved: timestamps, small
error codes, loop counters bounded by the thread budget).  C strings are
modelled as `List Char`.  Nondeterminism from the OS and libcurl (clock
readings, `pthread_create`/`pthread_join` return codes, curl outcomes)
is supplied through explicit environment records.
-/

/-- The C `struct timespec`: seconds plus nanoseconds, both C `long`. -/
structure Timespec where
  tv_sec : Int
  tv_nsec : Int
deriving Repr, DecidableEq

/-- Total value of a timespec in nanoseconds (specification device for
stating correctness of the difference macro). -/
def tsVal (t : Timespec) : Int :=
  t.tv_sec * 1000000000 + t.tv_nsec

/-- The macro `timespec_diff_macro(a, b, result)` of lines 40-48: field-wise
subtraction `a - b`, then if the nanosecond difference is negative,
borrow one second and add 1000000000 nanoseconds. -/
def timespec_diff_macro (a b : Timespec) : Timespec :=
  let sec := a.tv_sec - b.tv_sec
  let nsec := a.tv_nsec - b.tv_nsec
  if nsec < 0 then
    { tv_sec := sec - 1, tv_nsec := nsec + 1000000000 }
  else
    { tv_sec := sec, tv_nsec := nsec }

/-- The C `struct thread_info` (lines 62-74): one record per worker thread.
`thread_id` (the opaque pthread handle) carries no observable data and
is omitted.  `curl_error_string` is the C char array, as a char list. -/
structure ThreadInfo where
  thread_num : Int
  url : Option String
  start : Timespec
  end_ : Timespec
  response_code : Int
  os_error_code : Int
  curl_error_code : Int
  curl_error_string : List Char
  curl_total : Int
deriving Repr, DecidableEq

/-- The zero-filled `thread_info` produced by `calloc` (line 129): all
integer fields 0, null url pointer, all-zero char array (empty string),
zero timestamps. -/
def callocThreadInfo : ThreadInfo :=
  { thread_num := 0, url := none, start := ⟨0, 0⟩, end_ := ⟨0, 0⟩,
    response_code := 0, os_error_code := 0, curl_error_code := 0,
    curl_error_string := [], curl_total := 0 }

/-- What one `curl_easy_perform` run yields when `curl_easy_init`
succeeded: the `CURLcode` result, and the values `curl_easy_getinfo`
reports for total time, response code and OS errno, plus the contents
of the error buffer after the transfer. -/
structure CurlOutcome where
  curl_result : Int
  total_time : Int
  response_code : Int
  os_errno : Int
  error_string : List Char
deriving Repr, DecidableEq

/-- Environment of one worker thread: the two clock readings returned
by the `timespec_get` calls, and the curl outcome — `none` models
`curl_easy_init()` returning NULL. -/
structure WorkerEnv where
  startClock : Timespec
  curlInit : Option CurlOutcome
  endClock : Timespec

/-- The thread body `start_curl_run` (lines 81-102): record the start timestamp; then,
if the curl handle initializes, perform the request and store the
outcome fields; otherwise only report to stderr (no record fields are
written); finally record the end timestamp unconditionally. -/
def start_curl_run (env : WorkerEnv) (t : ThreadInfo) : ThreadInfo :=
  let t1 := { t with start := env.startClock }
  let t2 :=
    match env.curlInit with
    | some oc =>
        { t1 with
          curl_error_string := oc.error_string,
          curl_error_code := oc.curl_result,
          curl_total := oc.total_time,
          response_code := oc.response_code,
          os_error_code := oc.os_errno }
    | none => t1
  { t2 with end_ := env.endClock }

/-- C1: for timestamps with nanosecond fields in [0, 999999999] and
`end` (`a`) not earlier than `start` (`b`), `timespec_diff_macro a b` is
non-negative, its nanosecond field is normalized into [0, 999999999] by
the borrow, and its total value is exactly the difference of the two
timestamps. -/
theorem c1_timespec_diff_nonneg_normalized (a b : Timespec)
    (ha : 0 ≤ a.tv_nsec ∧ a.tv_nsec ≤ 999999999)
    (hb : 0 ≤ b.tv_nsec ∧ b.tv_nsec ≤ 999999999)
    (hle : tsVal b ≤ tsVal a) :
    0 ≤ ( timespec_diff_macro a b).tv_sec ∧
    0 ≤ ( timespec_diff_macro a b).tv_nsec ∧
    ( timespec_diff_macro a b).tv_nsec ≤ 999999999 ∧
    tsVal ( timespec_diff_macro a b) = tsVal a - tsVal b := by
  simp only [ timespec_diff_macro, tsVal] at *
  split <;> simp_all <;> omega

/-- Witness for C1 at the spec's own example: start = (5s, 900000000ns),
end = (6s, 100000000ns) gives elapsed = (0s, 200000000ns). -/
theorem c1_timespec_diff_nonneg_normalized_witness :
    (0 ≤ ( timespec_diff_macro ⟨6, 100000000⟩ ⟨5, 900000000⟩).tv_sec ∧
     0 ≤ ( timespec_diff_macro ⟨6, 100000000⟩ ⟨5, 900000000⟩).tv_nsec ∧
     ( timespec_diff_macro ⟨6, 100000000⟩ ⟨5, 900000000⟩).tv_nsec ≤ 999999999 ∧
     tsVal ( timespec_diff_macro ⟨6, 100000000⟩ ⟨5, 900000000⟩) =
       tsVal ⟨6, 100000000⟩ - tsVal ⟨5, 900000000⟩) ∧
    timespec_diff_macro ⟨6, 100000000⟩ ⟨5, 900000000⟩ = ⟨0, 200000000⟩ :=
  ⟨c1_timespec_diff_nonneg_normalized ⟨6, 100000000⟩ ⟨5, 900000000⟩
      (by constructor <;> decide) (by constructor <;> decide) (by decide),
   by decide⟩

/-- The guard of the per-record telemetry print (line 159):
`!config.silent || threads[i].curl_error_code`. -/
def emitsLine (silent : Bool) (t : ThreadInfo) : Bool :=
  !silent || (t.curl_error_code != 0)

/-- The error-classification test of line 158:
`if(threads[i].curl_error_code) ++errors`. -/
def isErrorRecord (t : ThreadInfo) : Bool :=
  t.curl_error_code != 0

/-- The `printf` rendering of an integer (`%d` / `%ld`), as a char list. -/
def fmtInt (n : Int) : List Char :=
  (toString n).data

/-- Left zero-padding to a total width, as `printf`'s `0` flag does
(sign first, then padding zeros). -/
def zeroPad (w : Nat) (s : List Char) : List Char :=
  List.replicate (w - s.length) '0' ++ s

/-- Conversion `%09ld`: zero-padded to width 9. -/
def fmt09 (n : Int) : List Char :=
  if n < 0 then '-' :: zeroPad 8 (toString (-n)).data
  else zeroPad 9 (toString n).data

/-- Conversion `%06ld`: zero-padded to width 6 (used for `curl_total`). -/
def fmt06 (n : Int) : List Char :=
  if n < 0 then '-' :: zeroPad 5 (toString (-n)).data
  else zeroPad 6 (toString n).data

/-- The `curl_error=%s%s` tail of the telemetry line (lines 160-165):
the error string is printed verbatim, and `nl` is `"\n"` when
`strrchr(curl_error_string, '\n')` is NULL — i.e. when the string
contains no newline anywhere — and `""` otherwise. -/
def errorField (s : List Char) : List Char :=
  s ++ (if '\n' ∈ s then [] else ['\n'])

/-- The full per-record telemetry line of the `fprintf(stdout, ...)`
at lines 161-165, with `elapsed` the `timespec_diff_macro` result. -/
def formatLine (t : ThreadInfo) (elapsed : Timespec) : List Char :=
  "Thread=".data ++ fmtInt t.thread_num ++
  ": response_code=".data ++ fmtInt t.response_code ++
  ": seconds=".data ++ fmtInt elapsed.tv_sec ++ ".".data ++ fmt09 elapsed.tv_nsec ++
  ": curl_time_t=".data ++ fmt06 t.curl_total ++
  ": os_error_code=".data ++ fmtInt t.os_error_code ++
  ": curl_error_code=".data ++ fmtInt t.curl_error_code ++
  ": curl_error=".data ++ errorField t.curl_error_string

/-- The emitted error field is never empty: either the string itself is
printed (and then it contains a newline, so is nonempty) or a newline
is appended. -/
theorem errorField_ne_nil (s : List Char) : errorField s ≠ [] := by
  by_cases h : '\n' ∈ s
  · simp only [errorField, h, if_pos, List.append_nil]
    intro he
    rw [he] at h
    exact (List.not_mem_nil _) h
  · simp [errorField, h]

/-- C7 counterexample: an error string with an embedded (non-trailing)
newline, `"a\nb"`, is printed verbatim and no newline is appended
(because `strrchr` finds the embedded one), so the emitted telemetry
line does not end in a newline at all — contradicting the claim that
the line always ends in exactly one newline. -/
theorem c7_counterexample_embedded_newline :
    (formatLine
        { callocThreadInfo with curl_error_code := 6, curl_error_string := ['a', '\n', 'b'] }
        ⟨0, 0⟩).getLast? ≠ some '\n' := by
  rw [formatLine, List.getLast?_append_of_ne_nil _ (errorField_ne_nil _)]
  decide

/-- C7 amended: the newline is appended iff the error string contains
no newline anywhere; the string itself is printed verbatim, untrimmed.
Hence the emitted line ends in a newline iff the error string is
newline-free or itself ends in a newline, and the error field
contributes `max 1 k` newlines where `k` is the number of newlines in
the error string (so a string with an embedded newline spans several
output lines or leaves the line unterminated). -/
theorem c7_amended_newline_handling (t : ThreadInfo) (e : Timespec) :
    ((formatLine t e).getLast? = some '\n' ↔
      ('\n' ∉ t.curl_error_string ∨ t.curl_error_string.getLast? = some '\n')) ∧
    (errorField t.curl_error_string).count '\n' =
      max 1 (t.curl_error_string.count '\n') := by
  constructor
  · rw [formatLine, List.getLast?_append_of_ne_nil _ (errorField_ne_nil _)]
    unfold errorField
    by_cases h : '\n' ∈ t.curl_error_string
    · rw [if_pos h, List.append_nil]
      tauto
    · rw [if_neg h, List.getLast?_concat]
      tauto
  · unfold errorField
    by_cases h : '\n' ∈ t.curl_error_string
    · have hpos : 0 < t.curl_error_string.count '\n' := List.count_pos_iff.mpr h
      rw [if_pos h, List.append_nil]
      omega
    · have hz : t.curl_error_string.count '\n' = 0 := List.count_eq_zero.mpr h
      rw [if_neg h, List.count_append, hz]
      simp

/-- The C `struct configuration` (lines 53-60) as populated by the `getopt`
loop: `url` stays NULL (`none`) when `-u` is absent (the designated
initializer at line 117 zero-fills the remaining members), and
`number_of_runs` stays 0 when `-r` is absent.  The two program
timestamps are read from the run environment instead. -/
structure Configuration where
  program_name : Option String
  url : Option String
  number_of_runs : Nat
  silent : Bool

/-- The check `validate_configuration` (lines 112-114): fails when the program
name or the url is NULL or the run count is 0. -/
def validate_configuration (c : Configuration) : Bool :=
  !(c.program_name.isNone || c.url.isNone || c.number_of_runs == 0)

/-- The four lines `usage` (lines 104-110) prints to stdout before
calling `exit(1)`; glibc renders a NULL `%s` as `(null)`. -/
def usage (argv : Option String) : List String :=
  let a := argv.getD "(null)"
  ["Usage: " ++ a ++ " -u URL -r number of runs ][-s produce less output]\n",
   "Pipe through tee to create a logfile\n",
   "\t" ++ a ++ " -u http://localhost -r 30000 | tee full.log\n",
   "\t" ++ a ++ " -u http://localhost -r 30000 -s | tee error.log\n"]

/-- The macro `handle_error_en(en, msg)` (lines 50-51): sets errno to `en`,
prints `msg` via `perror` and exits with `EXIT_FAILURE` (1). -/
structure Fatal where
  message : String
  en : Int
  exit_status : Nat
deriving Repr, DecidableEq

/-- Nondeterministic inputs of a whole run: the return code of
`pthread_create` and `pthread_join` for each ordinal (0 means success),
each worker thread's environment, and the two program-level
`timespec_get` readings (lines 128 and 170). -/
structure RunEnv where
  createResult : Nat → Int
  joinResult : Nat → Int
  workerEnv : Nat → WorkerEnv
  progStart : Timespec
  progEnd : Timespec

/-- The record worker `i` holds once joined: the zero-filled slot with
`thread_num` and `url` assigned (lines 135-136), then written by its
thread running `start_curl_run`. -/
def mkRecord (env : RunEnv) (url : Option String) (i : Nat) : ThreadInfo :=
  start_curl_run (env.workerEnv i)
    { callocThreadInfo with thread_num := (i : Int), url := url }

/-- The creation loop (lines 134-145) over the remaining ordinals:
assign `thread_num` and `url`, call `pthread_create`; a non-zero result
aborts via `handle_error_en` with the ordinal in the message; on
success the created thread runs `start_curl_run` on its slot (the
`nanosleep` pacing between creations has no observable effect on the
records and is not modelled). -/
def createLoop (env : RunEnv) (url : Option String) :
    List Nat → List ThreadInfo → Except Fatal (List ThreadInfo)
  | [], acc => .ok acc
  | i :: rest, acc =>
      if env.createResult i ≠ 0 then
        .error ⟨"pthread_create: thread_num " ++ toString i, env.createResult i, 1⟩
      else
        createLoop env url rest (acc ++ [mkRecord env url i])

/-- State of the join/aggregation loop: the `threads` array, the
`errors` counter (line 147) and the stdout lines emitted so far. -/
structure AggState where
  records : List ThreadInfo
  errors : Nat
  output : List (List Char)
deriving Repr, DecidableEq

/-- Body of the join loop after a successful join of thread `i`
(lines 156-166): compute `elapsed_time` with `timespec_diff_macro`,
bump `errors` when `curl_error_code` is non-zero, and print the
telemetry line when not silent or the record is an error.  Reading
`threads[i]` is modelled with `get?`; the loop only ever uses in-range
indices. -/
def aggStep (silent : Bool) (st : AggState) (i : Nat) : AggState :=
  match st.records[i]? with
  | none => st
  | some t =>
      let elapsed := timespec_diff_macro t.end_ t.start
      { records := st.records,
        errors := if isErrorRecord t then st.errors + 1 else st.errors,
        output :=
          if emitsLine silent t then st.output ++ [formatLine t elapsed]
          else st.output }

/-- The join loop (lines 149-167) over the remaining ordinals:
`pthread_join` thread `i`; a non-zero result aborts via
`handle_error_en` with the ordinal in the message; otherwise aggregate
record `i` and continue. -/
def joinLoop (env : RunEnv) (silent : Bool) :
    List Nat → AggState → Except Fatal AggState
  | [], st => .ok st
  | i :: rest, st =>
      if env.joinResult i ≠ 0 then
        .error ⟨"pthread_join: thread_num " ++ toString i, env.joinResult i, 1⟩
      else
        joinLoop env silent rest (aggStep silent st i)

/-- The final summary `printf` (line 173):
`"%d errors out of %ld runs in %ld.%09ld real seconds\n"`. -/
def summaryLine (errors : Nat) (runs : Nat) (elapsed : Timespec) : List Char :=
  fmtInt errors ++ " errors out of ".data ++ fmtInt runs ++ " runs in ".data ++
  fmtInt elapsed.tv_sec ++ ".".data ++ fmt09 elapsed.tv_nsec ++ " real seconds\n".data

/-- Observable result of a run that reached the final `return 0`. -/
structure MainResult where
  records : List ThreadInfo
  errors : Nat
  output : List (List Char)
  summary : List Char
  exit_status : Nat
deriving Repr, DecidableEq

/-- Lines 128-173 of `main` after successful validation: create all
threads, join them all while aggregating, then print the summary with
the whole-run elapsed time. -/
def runCore (env : RunEnv) (cfg : Configuration) : Except Fatal MainResult :=
  match createLoop env cfg.url (List.range cfg.number_of_runs) [] with
  | .error f => .error f
  | .ok ts =>
      match joinLoop env cfg.silent (List.range cfg.number_of_runs) ⟨ts, 0, []⟩ with
      | .error f => .error f
      | .ok st =>
          .ok ⟨st.records, st.errors, st.output,
               summaryLine st.errors cfg.number_of_runs
                 ( timespec_diff_macro env.progEnd env.progStart), 0⟩

/-- The three ways `main` can end: `usage`'s `exit(1)` printing to
stdout, `handle_error_en`'s `exit(EXIT_FAILURE)`, or the normal
`return 0`. -/
inductive MainOutcome where
  | usageExit : List String → Nat → MainOutcome
  | fatalExit : Fatal → MainOutcome
  | completed : MainResult → MainOutcome
deriving Repr, DecidableEq

/-- The function `main` (lines 116-175) with the configuration already parsed:
validate (line 127) — on failure print usage and exit 1 before any
allocation or thread work — then run the core. -/
def mainRun (env : RunEnv) (cfg : Configuration) : MainOutcome :=
  if validate_configuration cfg = false then
    .usageExit (usage cfg.program_name) 1
  else
    match runCore env cfg with
    | .error f => .fatalExit f
    | .ok r => .completed r

/-- Derived view used by the aggregation lemmas: the telemetry line of
a finalized record, with its elapsed time computed by
`timespec_diff_macro` as at line 157. -/
def recordLine (t : ThreadInfo) : List Char :=
  formatLine t ( timespec_diff_macro t.end_ t.start)

/-- The aggregation pass of lines 149-167 considered on its own, after
all joins have succeeded: fold the loop body over the ordinals of a
finalized records array, starting from `errors = 0` and no output. -/
def aggregateRun (silent : Bool) (rs : List ThreadInfo) : AggState :=
  (List.range rs.length).foldl (aggStep silent) ⟨rs, 0, []⟩

theorem aggStep_records (silent : Bool) (st : AggState) (i : Nat) :
    (aggStep silent st i).records = st.records := by
  unfold aggStep
  cases st.records[i]? <;> rfl

theorem foldl_aggStep_records (silent : Bool) :
    ∀ (l : List Nat) (st : AggState),
      (l.foldl (aggStep silent) st).records = st.records
  | [], _ => rfl
  | i :: l, st => by
      rw [List.foldl_cons, foldl_aggStep_records silent l, aggStep_records]

theorem foldl_aggStep_range (silent : Bool) (rs : List ThreadInfo) :
    ∀ (n : Nat), n ≤ rs.length → ∀ (e : Nat) (o : List (List Char)),
      (List.range n).foldl (aggStep silent) ⟨rs, e, o⟩ =
        ⟨rs, e + (rs.take n).countP isErrorRecord,
         o ++ ((rs.take n).filter (emitsLine silent)).map recordLine⟩
  | 0, _, e, o => by simp
  | n + 1, h, e, o => by
      have hn : n < rs.length := Nat.lt_of_succ_le h
      have ih := foldl_aggStep_range silent rs n (Nat.le_of_lt hn) e o
      rw [List.range_succ, List.foldl_append, ih, List.foldl_cons, List.foldl_nil]
      have hget : rs[n]? = some rs[n] := List.getElem?_eq_getElem hn
      unfold aggStep
      rw [hget]
      have htake : rs.take (n + 1) = rs.take n ++ [rs[n]] := by
        rw [List.take_succ, hget]
        rfl
      rw [htake, List.countP_append, List.filter_append, List.map_append]
      simp only [List.countP_cons, List.countP_nil, List.filter_cons, List.filter_nil]
      by_cases he : isErrorRecord rs[n] <;>
        by_cases hm : emitsLine silent rs[n] <;>
          simp [he, hm, recordLine, Nat.add_assoc, List.append_assoc]

theorem createLoop_head_fail (env : RunEnv) (url : Option String)
    (i : Nat) (l : List Nat) (acc : List ThreadInfo)
    (h : env.createResult i ≠ 0) :
    createLoop env url (i :: l) acc =
      .error ⟨"pthread_create: thread_num " ++ toString i, env.createResult i, 1⟩ := by
  simp [createLoop, h]

theorem createLoop_skip (env : RunEnv) (url : Option String) :
    ∀ (l₁ l₂ : List Nat) (acc : List ThreadInfo),
      (∀ j ∈ l₁, env.createResult j = 0) →
      createLoop env url (l₁ ++ l₂) acc =
        createLoop env url l₂ (acc ++ l₁.map (mkRecord env url))
  | [], _, acc, _ => by simp
  | i :: l₁, l₂, acc, h => by
      have hi : env.createResult i = 0 := h i (List.mem_cons_self i l₁)
      rw [List.cons_append]
      show createLoop env url (i :: (l₁ ++ l₂)) acc = _
      rw [createLoop]
      simp only [hi, ne_eq, not_true_eq_false, if_neg, not_false_eq_true,
        if_pos]
      rw [createLoop_skip env url l₁ l₂ (acc ++ [mkRecord env url i])
            (fun j hj => h j (List.mem_cons_of_mem i hj))]
      simp [List.append_assoc]

theorem createLoop_all_ok (env : RunEnv) (url : Option String)
    (l : List Nat) (acc : List ThreadInfo)
    (h : ∀ j ∈ l, env.createResult j = 0) :
    createLoop env url l acc = .ok (acc ++ l.map (mkRecord env url)) := by
  have := createLoop_skip env url l [] acc h
  rw [List.append_nil] at this
  rw [this]
  rfl

theorem joinLoop_head_fail (env : RunEnv) (silent : Bool)
    (i : Nat) (l : List Nat) (st : AggState)
    (h : env.joinResult i ≠ 0) :
    joinLoop env silent (i :: l) st =
      .error ⟨"pthread_join: thread_num " ++ toString i, env.joinResult i, 1⟩ := by
  simp [joinLoop, h]

theorem joinLoop_skip (env : RunEnv) (silent : Bool) :
    ∀ (l₁ l₂ : List Nat) (st : AggState),
      (∀ j ∈ l₁, env.joinResult j = 0) →
      joinLoop env silent (l₁ ++ l₂) st =
        joinLoop env silent l₂ (l₁.foldl (aggStep silent) st)
  | [], _, st, _ => by simp
  | i :: l₁, l₂, st, h => by
      have hi : env.joinResult i = 0 := h i (List.mem_cons_self i l₁)
      rw [List.cons_append]
      show joinLoop env silent (i :: (l₁ ++ l₂)) st = _
      rw [joinLoop]
      simp only [hi, ne_eq, not_true_eq_false, if_neg, not_false_eq_true,
        if_pos]
      rw [joinLoop_skip env silent l₁ l₂ (aggStep silent st i)
            (fun j hj => h j (List.mem_cons_of_mem i hj))]
      rfl

theorem joinLoop_all_ok (env : RunEnv) (silent : Bool)
    (l : List Nat) (st : AggState)
    (h : ∀ j ∈ l, env.joinResult j = 0) :
    joinLoop env silent l st = .ok (l.foldl (aggStep silent) st) := by
  have := joinLoop_skip env silent l [] st h
  rw [List.append_nil] at this
  rw [this]
  rfl

theorem range_break {n : Nat} :
    ∀ (i : Nat), i < n → ∃ l, List.range n = List.range i ++ i :: l := by
  induction n with
  | zero => exact fun i h => absurd h (Nat.not_lt_zero i)
  | succ n ih =>
      intro i h
      rcases Nat.lt_succ_iff_lt_or_eq.mp h with h' | rfl
      · obtain ⟨l, hl⟩ := ih i h'
        exact ⟨l ++ [n], by rw [List.range_succ, hl]; simp⟩
      · exact ⟨[], by rw [List.range_succ]⟩

theorem mkRecord_thread_num (env : RunEnv) (url : Option String) (i : Nat) :
    (mkRecord env url i).thread_num = (i : Int) := by
  unfold mkRecord start_curl_run
  cases (env.workerEnv i).curlInit <;> rfl

/-- Result of `runCore` when every `pthread_create` and `pthread_join`
succeeds: the records are exactly the N worker records in ordinal
order, the error count is the number of error records, the output the
telemetry lines of the records passing the emission guard, and the
summary line reports the error count. -/
theorem runCore_all_ok (env : RunEnv) (cfg : Configuration)
    (hc : ∀ j, j < cfg.number_of_runs → env.createResult j = 0)
    (hj : ∀ j, j < cfg.number_of_runs → env.joinResult j = 0) :
    runCore env cfg =
      .ok ⟨(List.range cfg.number_of_runs).map (mkRecord env cfg.url),
           ((List.range cfg.number_of_runs).map (mkRecord env cfg.url)).countP isErrorRecord,
           (((List.range cfg.number_of_runs).map (mkRecord env cfg.url)).filter
               (emitsLine cfg.silent)).map recordLine,
           summaryLine
             (((List.range cfg.number_of_runs).map (mkRecord env cfg.url)).countP isErrorRecord)
             cfg.number_of_runs ( timespec_diff_macro env.progEnd env.progStart),
           0⟩ := by
  have h1 := createLoop_all_ok env cfg.url (List.range cfg.number_of_runs) []
    (fun j hj' => hc j (List.mem_range.mp hj'))
  have hlen : ((List.range cfg.number_of_runs).map (mkRecord env cfg.url)).length =
      cfg.number_of_runs := by simp
  have h2 := joinLoop_all_ok env cfg.silent (List.range cfg.number_of_runs)
    ⟨(List.range cfg.number_of_runs).map (mkRecord env cfg.url), 0, []⟩
    (fun j hj' => hj j (List.mem_range.mp hj'))
  have h3 := foldl_aggStep_range cfg.silent
    ((List.range cfg.number_of_runs).map (mkRecord env cfg.url))
    cfg.number_of_runs (Nat.le_of_eq hlen.symm) 0 []
  have htake : ((List.range cfg.number_of_runs).map (mkRecord env cfg.url)).take
      cfg.number_of_runs = (List.range cfg.number_of_runs).map (mkRecord env cfg.url) :=
    List.take_of_length_le (Nat.le_of_eq hlen)
  rw [htake] at h3
  simp only [runCore, h1, List.nil_append, h2, h3]
  simp

/-- A concrete run environment for the closed witnesses: every
`pthread_create` and `pthread_join` succeeds, and each worker's curl
handle fails to initialize (the model has no network). -/
def witnessEnv : RunEnv :=
  { createResult := fun _ => 0, joinResult := fun _ => 0,
    workerEnv := fun _ => ⟨⟨0, 0⟩, none, ⟨0, 0⟩⟩,
    progStart := ⟨0, 0⟩, progEnd := ⟨1, 0⟩ }

/-- A concrete valid configuration for the closed witnesses. -/
def witnessCfg : Configuration :=
  { program_name := some "how_fast_is_server", url := some "http://localhost",
    number_of_runs := 2, silent := false }

/-- A concrete configuration with a missing URL (only `-r` given). -/
def witnessCfgNoUrl : Configuration :=
  { program_name := some "how_fast_is_server", url := none,
    number_of_runs := 5, silent := false }

/-- C2: when the run completes (every create and join succeeds), a run
with N ≥ 1 requested workers produces exactly N worker records, and the
error count reported in the final summary line equals the number of
records whose `curl_error_code` is non-zero. -/
theorem c2_record_count_and_error_count (env : RunEnv) (cfg : Configuration)
    (_hn : 1 ≤ cfg.number_of_runs)
    (hc : ∀ j, j < cfg.number_of_runs → env.createResult j = 0)
    (hj : ∀ j, j < cfg.number_of_runs → env.joinResult j = 0) :
    ∃ r : MainResult, runCore env cfg = .ok r ∧
      r.records.length = cfg.number_of_runs ∧
      r.errors = r.records.countP isErrorRecord ∧
      r.summary = summaryLine (r.records.countP isErrorRecord) cfg.number_of_runs
        ( timespec_diff_macro env.progEnd env.progStart) := by
  exact ⟨_, runCore_all_ok env cfg hc hj, by simp, rfl, rfl⟩

/-- Witness for C2 at N = 2 with all thread operations succeeding. -/
theorem c2_record_count_and_error_count_witness :
    (1 ≤ witnessCfg.number_of_runs) ∧
    ∃ r : MainResult, runCore witnessEnv witnessCfg = .ok r ∧
      r.records.length = witnessCfg.number_of_runs ∧
      r.errors = r.records.countP isErrorRecord ∧
      r.summary = summaryLine (r.records.countP isErrorRecord) witnessCfg.number_of_runs
        ( timespec_diff_macro witnessEnv.progEnd witnessEnv.progStart) :=
  ⟨by decide,
   c2_record_count_and_error_count witnessEnv witnessCfg (by decide)
     (fun _ _ => rfl) (fun _ _ => rfl)⟩

/-- C3: the telemetry guard of line 159 passes iff the run is not
silent or the record's transport error code is non-zero — an error
record's line is never suppressed, even in silent mode — and when the
run completes, the output consists exactly of the lines of the records
passing that guard, in record order. -/
theorem c3_telemetry_emission_guard (env : RunEnv) (cfg : Configuration)
    (hc : ∀ j, j < cfg.number_of_runs → env.createResult j = 0)
    (hj : ∀ j, j < cfg.number_of_runs → env.joinResult j = 0) :
    (∀ (silent : Bool) (t : ThreadInfo),
        (emitsLine silent t = true ↔ (silent = false ∨ t.curl_error_code ≠ 0)) ∧
        (t.curl_error_code ≠ 0 → emitsLine silent t = true)) ∧
    ∃ r : MainResult, runCore env cfg = .ok r ∧
      r.output = (r.records.filter (emitsLine cfg.silent)).map recordLine := by
  constructor
  · intro silent t
    constructor
    · cases silent <;> simp [emitsLine, bne_iff_ne]
    · intro h
      cases silent <;> simp [emitsLine, bne_iff_ne, h]
  · exact ⟨_, runCore_all_ok env cfg hc hj, rfl⟩

/-- Witness for C3 at N = 2 with all thread operations succeeding. -/
theorem c3_telemetry_emission_guard_witness :
    (∀ (silent : Bool) (t : ThreadInfo),
        (emitsLine silent t = true ↔ (silent = false ∨ t.curl_error_code ≠ 0)) ∧
        (t.curl_error_code ≠ 0 → emitsLine silent t = true)) ∧
    ∃ r : MainResult, runCore witnessEnv witnessCfg = .ok r ∧
      r.output = (r.records.filter (emitsLine witnessCfg.silent)).map recordLine :=
  c3_telemetry_emission_guard witnessEnv witnessCfg
    (fun _ _ => rfl) (fun _ _ => rfl)

theorem mainRun_valid (env : RunEnv) (cfg : Configuration)
    (hv : validate_configuration cfg = true) :
    mainRun env cfg = match runCore env cfg with
      | .error f => .fatalExit f
      | .ok r => .completed r := by
  unfold mainRun
  rw [hv]
  rfl

/-- C4: with a valid configuration, a failing `pthread_create` at the
first failing ordinal i aborts the whole run through `handle_error_en`
with exit status 1 and the diagnostic `pthread_create: thread_num i`;
a failing `pthread_join` likewise aborts with
`pthread_join: thread_num i`; and when every create and join succeeds
the run always completes normally (exit status 0) regardless of the
curl outcomes — request-level failures never abort. -/
theorem c4_fatal_on_create_or_join_failure (env : RunEnv) (cfg : Configuration)
    (hv : validate_configuration cfg = true) :
    (∀ i, i < cfg.number_of_runs → env.createResult i ≠ 0 →
      (∀ j, j < i → env.createResult j = 0) →
      mainRun env cfg =
        .fatalExit ⟨"pthread_create: thread_num " ++ toString i, env.createResult i, 1⟩) ∧
    ((∀ j, j < cfg.number_of_runs → env.createResult j = 0) →
      ∀ i, i < cfg.number_of_runs → env.joinResult i ≠ 0 →
      (∀ j, j < i → env.joinResult j = 0) →
      mainRun env cfg =
        .fatalExit ⟨"pthread_join: thread_num " ++ toString i, env.joinResult i, 1⟩) ∧
    ((∀ j, j < cfg.number_of_runs → env.createResult j = 0) →
      (∀ j, j < cfg.number_of_runs → env.joinResult j = 0) →
      ∃ r : MainResult, mainRun env cfg = .completed r ∧ r.exit_status = 0) := by
  refine ⟨?_, ?_, ?_⟩
  · intro i hi hfail hpre
    obtain ⟨l, hl⟩ := range_break i hi
    have hcl : createLoop env cfg.url (List.range cfg.number_of_runs) [] =
        .error ⟨"pthread_create: thread_num " ++ toString i, env.createResult i, 1⟩ := by
      rw [hl, createLoop_skip env cfg.url (List.range i) (i :: l) []
            (fun j hj' => hpre j (List.mem_range.mp hj')),
          createLoop_head_fail env cfg.url i l _ hfail]
    simp [mainRun, hv, runCore, hcl]
  · intro hcall i hi hfail hpre
    obtain ⟨l, hl⟩ := range_break i hi
    have h1 := createLoop_all_ok env cfg.url (List.range cfg.number_of_runs) []
      (fun j hj' => hcall j (List.mem_range.mp hj'))
    have hjl : joinLoop env cfg.silent (List.range cfg.number_of_runs)
        ⟨(List.range cfg.number_of_runs).map (mkRecord env cfg.url), 0, []⟩ =
        .error ⟨"pthread_join: thread_num " ++ toString i, env.joinResult i, 1⟩ := by
      rw [hl, joinLoop_skip env cfg.silent (List.range i) (i :: l) _
            (fun j hj' => hpre j (List.mem_range.mp hj')),
          joinLoop_head_fail env cfg.silent i l _ hfail]
    simp [mainRun, hv, runCore, h1, hjl]
  · intro hcall hjall
    have hr : mainRun env cfg = .completed
        ⟨(List.range cfg.number_of_runs).map (mkRecord env cfg.url),
         ((List.range cfg.number_of_runs).map (mkRecord env cfg.url)).countP isErrorRecord,
         (((List.range cfg.number_of_runs).map (mkRecord env cfg.url)).filter
             (emitsLine cfg.silent)).map recordLine,
         summaryLine
           (((List.range cfg.number_of_runs).map (mkRecord env cfg.url)).countP isErrorRecord)
           cfg.number_of_runs ( timespec_diff_macro env.progEnd env.progStart), 0⟩ := by
      rw [mainRun_valid env cfg hv, runCore_all_ok env cfg hcall hjall]
    exact ⟨_, hr, rfl⟩

/-- Witness for C4 at a concrete valid configuration. -/
theorem c4_fatal_on_create_or_join_failure_witness :
    (validate_configuration witnessCfg = true) ∧
    ((∀ i, i < witnessCfg.number_of_runs → witnessEnv.createResult i ≠ 0 →
      (∀ j, j < i → witnessEnv.createResult j = 0) →
      mainRun witnessEnv witnessCfg =
        .fatalExit ⟨"pthread_create: thread_num " ++ toString i, witnessEnv.createResult i, 1⟩) ∧
    ((∀ j, j < witnessCfg.number_of_runs → witnessEnv.createResult j = 0) →
      ∀ i, i < witnessCfg.number_of_runs → witnessEnv.joinResult i ≠ 0 →
      (∀ j, j < i → witnessEnv.joinResult j = 0) →
      mainRun witnessEnv witnessCfg =
        .fatalExit ⟨"pthread_join: thread_num " ++ toString i, witnessEnv.joinResult i, 1⟩) ∧
    ((∀ j, j < witnessCfg.number_of_runs → witnessEnv.createResult j = 0) →
      (∀ j, j < witnessCfg.number_of_runs → witnessEnv.joinResult j = 0) →
      ∃ r : MainResult, mainRun witnessEnv witnessCfg = .completed r ∧ r.exit_status = 0)) :=
  ⟨rfl, c4_fatal_on_create_or_join_failure witnessEnv witnessCfg rfl⟩

/-- C5: with worker count 0 or a missing URL, `main` prints the usage
text to stdout and exits with status 1 (non-zero) straight from the
validation at line 127 — by construction of `mainRun` this happens
before the record array is allocated and before any thread primitive
is touched, so the outcome is `usageExit`, never `fatalExit` or
`completed`. -/
theorem c5_invalid_config_usage_exit (env : RunEnv) (cfg : Configuration)
    (h : cfg.number_of_runs = 0 ∨ cfg.url = none) :
    mainRun env cfg = .usageExit (usage cfg.program_name) 1 ∧ (1 : Nat) ≠ 0 := by
  refine ⟨?_, one_ne_zero⟩
  have hv : validate_configuration cfg = false := by
    rcases h with h | h <;> simp [validate_configuration, h]
  simp [mainRun, hv]

/-- Witness for C5 at a concrete configuration missing its URL. -/
theorem c5_invalid_config_usage_exit_witness :
    (witnessCfgNoUrl.number_of_runs = 0 ∨ witnessCfgNoUrl.url = none) ∧
    (mainRun witnessEnv witnessCfgNoUrl =
        .usageExit (usage witnessCfgNoUrl.program_name) 1 ∧ (1 : Nat) ≠ 0) :=
  ⟨Or.inr rfl, c5_invalid_config_usage_exit witnessEnv witnessCfgNoUrl (Or.inr rfl)⟩

/-- C8: when the run completes, the i-th worker record's `thread_num`
is exactly i (ordinals are 0..N-1 with no gaps or duplicates), and the
telemetry output is the records traversed in that ordinal order (the
join loop of line 149 walks i = 0..N-1 in increasing order). -/
theorem c8_ordinals_cover_range (env : RunEnv) (cfg : Configuration)
    (hc : ∀ j, j < cfg.number_of_runs → env.createResult j = 0)
    (hj : ∀ j, j < cfg.number_of_runs → env.joinResult j = 0) :
    ∃ r : MainResult, runCore env cfg = .ok r ∧
      r.records.length = cfg.number_of_runs ∧
      (∀ (i : Nat) (h : i < r.records.length),
        (r.records.get ⟨i, h⟩).thread_num = (i : Int)) ∧
      r.output = (r.records.filter (emitsLine cfg.silent)).map recordLine := by
  refine ⟨_, runCore_all_ok env cfg hc hj, by simp, ?_, rfl⟩
  intro i h
  simp [mkRecord_thread_num]

/-- Witness for C8 at N = 2 with all thread operations succeeding. -/
theorem c8_ordinals_cover_range_witness :
    ∃ r : MainResult, runCore witnessEnv witnessCfg = .ok r ∧
      r.records.length = witnessCfg.number_of_runs ∧
      (∀ (i : Nat) (h : i < r.records.length),
        (r.records.get ⟨i, h⟩).thread_num = (i : Int)) ∧
      r.output = (r.records.filter (emitsLine witnessCfg.silent)).map recordLine :=
  c8_ordinals_cover_range witnessEnv witnessCfg (fun _ _ => rfl) (fun _ _ => rfl)

/-- C9: the aggregation pass leaves the records array it consumes
unchanged (the loop body of lines 156-166 only reads `threads[i]`), so
applying it a second time to the records it leaves behind produces the
identical state — identical error count and identical output. -/
theorem c9_aggregation_idempotent (silent : Bool) (rs : List ThreadInfo) :
    (aggregateRun silent rs).records = rs ∧
    aggregateRun silent (aggregateRun silent rs).records = aggregateRun silent rs := by
  have h : (aggregateRun silent rs).records = rs :=
    foldl_aggStep_records silent (List.range rs.length) ⟨rs, 0, []⟩
  exact ⟨h, by rw [h]⟩

/-- C6: `start_curl_run` stores the first clock reading into `start`
and the second into `end` in both branches — also when `curl_easy_init`
fails — so the record's timing bracket is always populated; the stored
start value is independent of the curl outcome, reflecting that it is
taken before the curl handle is constructed. -/
theorem c6_worker_timestamps_unconditional (env : WorkerEnv) (t : ThreadInfo) :
    (start_curl_run env t).start = env.startClock ∧
    (start_curl_run env t).end_ = env.endClock := by
  cases h : env.curlInit <;> simp [start_curl_run, h]

/-- C10: when `curl_easy_init` fails (`curlInit = none`), the worker's
record keeps the zero outcome fields it received from `calloc`:
response_code, os_error_code, curl_error_code and curl_total stay 0 and
the error string stays empty; hence the aggregator does not classify it
as an error and its telemetry line is suppressed in silent mode. -/
theorem c10_init_failure_keeps_zero_outcome (env : WorkerEnv) (i : Int)
    (url : Option String) (hinit : env.curlInit = none) :
    (start_curl_run env { callocThreadInfo with thread_num := i, url := url }).response_code = 0 ∧
    (start_curl_run env { callocThreadInfo with thread_num := i, url := url }).os_error_code = 0 ∧
    (start_curl_run env { callocThreadInfo with thread_num := i, url := url }).curl_error_code = 0 ∧
    (start_curl_run env { callocThreadInfo with thread_num := i, url := url }).curl_total = 0 ∧
    (start_curl_run env { callocThreadInfo with thread_num := i, url := url }).curl_error_string = [] ∧
    isErrorRecord (start_curl_run env { callocThreadInfo with thread_num := i, url := url }) = false ∧
    emitsLine true (start_curl_run env { callocThreadInfo with thread_num := i, url := url }) = false := by
  simp [start_curl_run, hinit, callocThreadInfo, isErrorRecord, emitsLine]

/-- Witness for C10: a concrete worker environment whose curl handle
fails to initialize. -/
theorem c10_init_failure_keeps_zero_outcome_witness :
    (start_curl_run ⟨⟨3, 4⟩, none, ⟨5, 6⟩⟩
        { callocThreadInfo with thread_num := 7, url := some "http://localhost" }).response_code = 0 ∧
    (start_curl_run ⟨⟨3, 4⟩, none, ⟨5, 6⟩⟩
        { callocThreadInfo with thread_num := 7, url := some "http://localhost" }).os_error_code = 0 ∧
    (start_curl_run ⟨⟨3, 4⟩, none, ⟨5, 6⟩⟩
        { callocThreadInfo with thread_num := 7, url := some "http://localhost" }).curl_error_code = 0 ∧
    (start_curl_run ⟨⟨3, 4⟩, none, ⟨5, 6⟩⟩
        { callocThreadInfo with thread_num := 7, url := some "http://localhost" }).curl_total = 0 ∧
    (start_curl_run ⟨⟨3, 4⟩, none, ⟨5, 6⟩⟩
        { callocThreadInfo with thread_num := 7, url := some "http://localhost" }).curl_error_string = [] ∧
    isErrorRecord (start_curl_run ⟨⟨3, 4⟩, none, ⟨5, 6⟩⟩
        { callocThreadInfo with thread_num := 7, url := some "http://localhost" }) = false ∧
    emitsLine true (start_curl_run ⟨⟨3, 4⟩, none, ⟨5, 6⟩⟩
        { callocThreadInfo with thread_num := 7, url := some "http://localhost" }) = false :=
  c10_init_failure_keeps_zero_outcome ⟨⟨3, 4⟩, none, ⟨5, 6⟩⟩ 7
    (some "http://localhost") rfl
